import Mathlib

/-!
Shallow embedding of the request-orchestration and persistence layer of the
Spanish oral-examiner backend (`server.js`, PostgreSQL variant).

Pure functions model each Express handler: the handler's input is the parsed
request body (absent JSON fields become `none`), the behaviour of the external
provider or of the database is passed in explicitly, and the result records
the HTTP response produced and whether the external call was ever issued.
-/

namespace SpanishExaminer

/-- A JSON value, as produced by `JSON.parse` on the provider's content. -/
inductive Json where
  | null
  | bool (b : Bool)
  | num (q : ℚ)
  | str (s : String)
  | arr (elems : List Json)
  | obj (fields : List (String × Json))

/-- Field lookup on a JSON object (`parsed.verdict` etc.); `none` off objects. -/
def Json.lookup : Json → String → Option Json
  | .obj fields, k => List.lookup k fields
  | _, _ => none

/-- JavaScript truthiness of a JSON value (`if (stats) ...`). -/
def Json.truthy : Json → Bool
  | .null => false
  | .bool b => b
  | .num q => if q = 0 then false else true
  | .str s => !s.isEmpty
  | .arr _ => true
  | .obj _ => true

/-- The characters of a string with whitespace stripped from both ends
(the character-level model of `x.trim()`). -/
def trimmedChars (s : String) : List Char :=
  ((s.data.dropWhile Char.isWhitespace).reverse.dropWhile Char.isWhitespace).reverse

/-- Models `!x || x.trim().length === 0` for a string-valued body field that
may be absent (`none` covers `undefined`/`null`). -/
def blankOptStr (s : Option String) : Bool :=
  match s with
  | none => true
  | some t => (trimmedChars t).isEmpty

/-- Models `!x` for a string-valued field: falsy when absent or empty. -/
def falsyOptStr (s : Option String) : Bool :=
  match s with
  | none => true
  | some t => t.isEmpty

/-- Models `x || d` for a string-valued field. -/
def jsOrStr (x : Option String) (d : String) : String :=
  match x with
  | none => d
  | some s => if s.isEmpty then d else s

/-- Models `x || d` for a number-valued field (`0` is falsy, like JS). -/
def jsOrNum (x : Option ℚ) (d : ℚ) : ℚ :=
  match x with
  | none => d
  | some v => if v = 0 then d else v

/-- Models `x || d` for a JSON-valued field (`stats || {...}`). -/
def jsOrJson (x : Option Json) (d : Json) : Json :=
  match x with
  | none => d
  | some j => if j.truthy then j else d

/-! ### Provider interaction -/

/-- Outcome of the `fetch` to the chat-completion provider, as seen by a
handler: a non-2xx HTTP reply carrying an error body, a 2xx reply whose
message content either parses as JSON (`content (some j)`) or does not
(`content none`), or a thrown transport exception with its message. -/
inductive LlmResult where
  | httpError (errorText : String)
  | content (parsed : Option Json)
  | exn (msg : String)

/-- An HTTP response from a JSON handler: either `res.status(s).json({error: msg})`
or `res.json(parsed)` (status 200). -/
inductive ApiResponse where
  | error (status : Nat) (msg : String)
  | jsonOk (body : Json)

/-- The HTTP status of a response. -/
def ApiResponse.status : ApiResponse → Nat
  | .error s _ => s
  | .jsonOk _ => 200

/-- One run of a handler: whether the outbound provider request was issued,
and the response sent to the caller. -/
structure HandlerRun where
  providerCalled : Bool
  response : ApiResponse

/-! ### POST /api/extract-qa -/

/-- The `POST /api/extract-qa` handler (`server.js` lines 292-339): rejects
blank `rawText` with 400 before any provider call; on provider HTTP failure
replies 500 with a fixed generic message; on unparsable content replies 500
with a fixed message; on parsable content returns the parsed JSON as-is; a
thrown exception is caught and its message returned with status 500. -/
def extractHandler (rawText : Option String) (llm : LlmResult) : HandlerRun :=
  if blankOptStr rawText then
    ⟨false, .error 400 "No text provided"⟩
  else
    ⟨true,
      match llm with
      | .httpError _ => .error 500 "Failed to extract questions"
      | .content none => .error 500 "Invalid response format from LLM"
      | .content (some j) => .jsonOk j
      | .exn m => .error 500 m⟩

/-! ### POST /api/grade -/

/-- Body of a grading request. -/
structure GradeRequest where
  question : Option String
  expectedAnswer : Option String
  studentAnswer : Option String
  acceptableVariations : Option (List String)

/-- The `POST /api/grade` handler (`server.js` lines 378-451): rejects when
any of the three required fields is falsy; otherwise calls the provider and
returns whatever JSON the provider content parses to, with no verdict
validation; unparsable content gives 500 with a fixed message; a thrown
exception is caught and its message returned with status 500. -/
def gradeHandler (r : GradeRequest) (llm : LlmResult) : HandlerRun :=
  if falsyOptStr r.question || falsyOptStr r.expectedAnswer || falsyOptStr r.studentAnswer then
    ⟨false, .error 400 "Missing required fields"⟩
  else
    ⟨true,
      match llm with
      | .httpError _ => .error 500 "Grading failed"
      | .content none => .error 500 "Invalid grading response"
      | .content (some j) => .jsonOk j
      | .exn m => .error 500 m⟩

/-! ### POST /api/tts -/

/-- Body of a synthesis request; `speed := none` models an absent or `null`
field, `some 0` a literal zero. -/
structure TtsRequest where
  text : Option String
  voiceId : Option String
  speed : Option ℚ

/-- Outcome of the `fetch` to the speech-synthesis provider. -/
inductive TtsProviderResult where
  | httpError (errorText : String)
  | ok (audioContent : String)
  | exn (msg : String)

/-- Response of the tts handler: an error JSON or the decoded audio. -/
inductive TtsResponse where
  | error (status : Nat) (msg : String)
  | audioOk (audioContent : String)

/-- The HTTP status of a tts response (success sends the bytes with 200). -/
def TtsResponse.status : TtsResponse → Nat
  | .error s _ => s
  | .audioOk _ => 200

/-- One run of the tts handler: `requestSent` records the `(voice_id,
speaking_rate)` of the outbound provider request, when one was issued. -/
structure TtsRun where
  requestSent : Option (String × ℚ)
  response : TtsResponse

/-- `Math.max` on two numbers. -/
def mathMax (a b : ℚ) : ℚ :=
  if a ≤ b then b else a

/-- `Math.min` on two numbers. -/
def mathMin (a b : ℚ) : ℚ :=
  if a ≤ b then a else b

/-- `const selectedSpeed = Math.min(1.5, Math.max(0.5, speed || 0.7))`
(`server.js` line 468). -/
def selectedSpeed (speed : Option ℚ) : ℚ :=
  mathMin (3/2 : ℚ) (mathMax (1/2 : ℚ) (jsOrNum speed (7/10)))

/-- The `POST /api/tts` handler (`server.js` lines 454-510): rejects blank
text with 400; replies 500 `Inworld API key not configured` when the key is
falsy; otherwise sends the provider request with the defaulted voice and the
clamped speaking rate; provider HTTP failure gives 500 with a fixed generic
message; a thrown exception is caught and its message returned with 500. -/
def ttsHandler (inworldApiKey : Option String) (defaultVoice : String)
    (r : TtsRequest) (provider : TtsProviderResult) : TtsRun :=
  if blankOptStr r.text then
    ⟨none, .error 400 "No text provided"⟩
  else if falsyOptStr inworldApiKey then
    ⟨none, .error 500 "Inworld API key not configured"⟩
  else
    let v := jsOrStr r.voiceId defaultVoice
    let sp := selectedSpeed r.speed
    ⟨some (v, sp),
      match provider with
      | .httpError _ => .error 500 "Text-to-speech failed"
      | .ok audio => .audioOk audio
      | .exn m => .error 500 m⟩

/-! ### Session store (PostgreSQL variant) -/

/-- One row of the `sessions` table. `questions` holds the JSONB array that
was inserted; timestamps are abstract instants. -/
structure SessionRecord where
  id : Int
  name : String
  questions : List Json
  stats : Json
  rawText : String
  createdAt : Nat
  updatedAt : Nat

/-- The store: connectivity flag, the table rows, and the next SERIAL id. -/
structure Store where
  connected : Bool
  rows : List SessionRecord
  nextId : Int

/-- `parseInt` on a route parameter: optional sign then a leading digit run;
`none` models `NaN` (used only through the `isNaN(parseInt(id))` guard). -/
def jsParseInt (s : String) : Option Int :=
  let signRest : Int × List Char :=
    match trimmedChars s with
    | '-' :: cs => (-1, cs)
    | '+' :: cs => (1, cs)
    | cs => (1, cs)
  let digits := signRest.2.takeWhile Char.isDigit
  if digits.isEmpty then none
  else some (signRest.1 * ((digits.foldl (fun acc c => acc * 10 + (c.toNat - 48)) 0 : Nat) : Int))

/-- The integer cast PostgreSQL applies to the `id` parameter in
`WHERE id = $1`: the whole trimmed string must be an optionally signed digit
run, otherwise the query raises an error. -/
def pgIntCast (s : String) : Option Int :=
  let signRest : Int × List Char :=
    match trimmedChars s with
    | '-' :: cs => (-1, cs)
    | '+' :: cs => (1, cs)
    | cs => (1, cs)
  if signRest.2.isEmpty then none
  else if signRest.2.all Char.isDigit then
    some (signRest.1 * ((signRest.2.foldl (fun acc c => acc * 10 + (c.toNat - 48)) 0 : Nat) : Int))
  else none

/-- Body of `POST /api/sessions`; `questions := none` models an absent field. -/
structure CreateRequest where
  name : Option String
  questions : Option (List Json)
  stats : Option Json
  rawText : Option String

/-- The default stats object `{ correct: 0, partial: 0, incorrect: 0 }`. -/
def defaultStats : Json :=
  .obj [("correct", .num 0), ("partial", .num 0), ("incorrect", .num 0)]

/-- Outcome of `POST /api/sessions`. -/
inductive CreateOutcome where
  | dbUnavailable
  | validationError (msg : String)
  | created (row : SessionRecord)

/-- The HTTP status of a create outcome. -/
def CreateOutcome.status : CreateOutcome → Nat
  | .dbUnavailable => 503
  | .validationError _ => 400
  | .created _ => 200

/-- The `POST /api/sessions` handler (`server.js` lines 97-138): 503 when the
pool is down; 400 `No questions to save` when `questions` is absent or empty,
before any `INSERT`; otherwise inserts a row with defaulted name and stats,
`created_at = updated_at = NOW()`, and returns it. -/
def createSession (st : Store) (now : Nat) (today : String) (r : CreateRequest) :
    CreateOutcome × Store :=
  if st.connected = false then (.dbUnavailable, st)
  else
    match r.questions with
    | none => (.validationError "No questions to save", st)
    | some qs =>
      if qs.length = 0 then (.validationError "No questions to save", st)
      else
        let row : SessionRecord :=
          { id := st.nextId
            name := jsOrStr r.name ("Session " ++ today)
            questions := qs
            stats := jsOrJson r.stats defaultStats
            rawText := jsOrStr r.rawText ""
            createdAt := now
            updatedAt := now }
        (.created row, { st with rows := st.rows ++ [row], nextId := st.nextId + 1 })

/-- Body of `PATCH /api/sessions/:id`. -/
structure PatchRequest where
  stats : Option Json
  name : Option String

/-- Outcome of `PATCH /api/sessions/:id`. -/
inductive PatchOutcome where
  | dbUnavailable
  | invalidId
  | dbError
  | notFound
  | success

/-- The HTTP status of a patch outcome (`dbError` is the catch-all 500). -/
def PatchOutcome.status : PatchOutcome → Nat
  | .dbUnavailable => 503
  | .invalidId => 400
  | .dbError => 500
  | .notFound => 404
  | .success => 200

/-- The `UPDATE ... SET` list built by the patch handler: `stats = $..` when
`stats` is truthy, `name = $..` when `name` is truthy, always
`updated_at = NOW()`; all other columns are untouched. -/
def applyPatch (r : PatchRequest) (now : Nat) (row : SessionRecord) : SessionRecord :=
  let row1 :=
    match r.stats with
    | some s => if s.truthy then { row with stats := s } else row
    | none => row
  let row2 :=
    match r.name with
    | some nm => if nm.isEmpty then row1 else { row1 with name := nm }
    | none => row1
  { row2 with updatedAt := now }

/-- The `PATCH /api/sessions/:id` handler (`server.js` lines 213-258): 503
when the pool is down; 400 when `isNaN(parseInt(id))`; the `UPDATE` updates
every row whose `id` equals the cast parameter; 404 when no row matched. -/
def patchSession (st : Store) (now : Nat) (idStr : String) (r : PatchRequest) :
    PatchOutcome × Store :=
  if st.connected = false then (.dbUnavailable, st)
  else if (jsParseInt idStr).isNone then (.invalidId, st)
  else
    match pgIntCast idStr with
    | none => (.dbError, st)
    | some n =>
      if st.rows.any (fun row => decide (row.id = n)) then
        (.success,
          { st with rows := st.rows.map (fun row => if row.id = n then applyPatch r now row else row) })
      else (.notFound, st)

/-- One element of the `GET /api/sessions` reply: the summary projection
`SELECT id, name, stats, created_at, jsonb_array_length(questions)`. -/
structure SessionSummary where
  id : Int
  name : String
  stats : Json
  createdAt : Nat
  questionCount : Nat

/-- The projection of a row to its listing summary. -/
def summarize (row : SessionRecord) : SessionSummary :=
  { id := row.id
    name := row.name
    stats := row.stats
    createdAt := row.createdAt
    questionCount := row.questions.length }

/-- The `ORDER BY created_at DESC` comparison. -/
def createdAtDesc (a b : SessionRecord) : Prop :=
  b.createdAt ≤ a.createdAt

instance : DecidableRel createdAtDesc :=
  fun a b => inferInstanceAs (Decidable (b.createdAt ≤ a.createdAt))

instance : IsTotal SessionRecord createdAtDesc :=
  ⟨fun a b => (Nat.le_total a.createdAt b.createdAt).symm⟩

instance : IsTrans SessionRecord createdAtDesc :=
  ⟨fun _ _ _ hab hbc => Nat.le_trans hbc hab⟩

/-- The `GET /api/sessions` handler (`server.js` lines 141-167): 503 when the
pool is down, otherwise the rows sorted by `created_at` descending and
projected to summaries. -/
def listSessions (st : Store) : Option (List SessionSummary) :=
  if st.connected = false then none
  else some ((st.rows.insertionSort createdAtDesc).map summarize)

/-! ### Question invariant, from the specification -/

/-- The fixed topic tag set of the specification. -/
def validTopics : List String :=
  ["vocabulary", "conjugation", "translation", "conversation"]

/-- Stated from the specification's Question invariant (not from the code,
which performs no such validation): `question` and `expectedAnswer` are
non-empty strings, every acceptable variation is a non-empty string, and
`topic` belongs to the fixed tag set. Used to compare the code's behaviour
against the spec. -/
def specQuestionInvariant (j : Json) : Bool :=
  (match j.lookup "question" with
   | some (.str s) => !s.isEmpty
   | _ => false) &&
  (match j.lookup "expectedAnswer" with
   | some (.str s) => !s.isEmpty
   | _ => false) &&
  (match j.lookup "acceptableVariations" with
   | some (.arr xs) =>
       xs.all (fun x => match x with | .str s => !s.isEmpty | _ => false)
   | _ => false) &&
  (match j.lookup "topic" with
   | some (.str t) => validTopics.contains t
   | _ => false)

/-! ### Concrete inputs used in counterexamples and witnesses -/

/-- The three verdict values the specification allows. -/
def validVerdicts : List String :=
  ["correct", "partial", "incorrect"]

/-- A grading request with all required fields present. -/
def demoGradeRequest : GradeRequest :=
  { question := some "Como se dice dog"
    expectedAnswer := some "perro"
    studentAnswer := some "el perro"
    acceptableVariations := none }

/-- A provider grading reply whose verdict is outside the fixed set. -/
def unknownVerdictJson : Json :=
  .obj [("verdict", .str "excellent"), ("feedback", .str "Nice"),
        ("correction", .str ""), ("explanation", .str "off scale")]

/-- A question object violating the Question invariant: empty `question`
text and a topic outside the fixed tag set. -/
def invalidQuestionJson : Json :=
  .obj [("question", .str ""), ("expectedAnswer", .str "perro"),
        ("acceptableVariations", .arr []), ("topic", .str "math")]

/-- A parseable extraction payload containing the invalid question. -/
def invalidExtractPayload : Json :=
  .obj [("questions", .arr [invalidQuestionJson])]

/-- A synthesis request with non-blank text and no voice or speed. -/
def demoTtsRequest : TtsRequest :=
  { text := some "hola", voiceId := none, speed := none }

/-- A stored session row created at instant 5. -/
def rowA : SessionRecord :=
  { id := 1, name := "lunes", questions := [Json.null], stats := defaultStats,
    rawText := "", createdAt := 5, updatedAt := 5 }

/-- A stored session row created at instant 9. -/
def rowB : SessionRecord :=
  { id := 2, name := "martes", questions := [], stats := defaultStats,
    rawText := "dog = perro", createdAt := 9, updatedAt := 9 }

/-- A stored session row created at instant 1. -/
def rowC : SessionRecord :=
  { id := 3, name := "jueves", questions := [Json.null, Json.null],
    stats := defaultStats, rawText := "", createdAt := 1, updatedAt := 1 }

/-- A connected store holding three sessions. -/
def demoStore : Store :=
  { connected := true, rows := [rowA, rowB, rowC], nextId := 4 }

/-- A truthy stats object to patch in. -/
def newStats : Json :=
  .obj [("correct", .num 1), ("partial", .num 0), ("incorrect", .num 2)]

end SpanishExaminer

namespace SpanishExaminer

/-- C1. The claim says a provider verdict outside
{correct, partial, incorrect} is rejected as MalformedResponse. It is not:
at a full grading request, when the provider content parses to an object
whose verdict is the string `excellent`, the handler replies 200 with that
object returned as-is. -/
theorem grade_unknown_verdict_returned_counterexample :
    gradeHandler demoGradeRequest (.content (some unknownVerdictJson)) =
      ⟨true, .jsonOk unknownVerdictJson⟩ ∧
    unknownVerdictJson.lookup "verdict" = some (.str "excellent") ∧
    validVerdicts.contains "excellent" = false ∧
    (ApiResponse.jsonOk unknownVerdictJson).status = 200 :=
  ⟨rfl, rfl, rfl, rfl⟩

/-- C1 (amended). For every grading request with all three required fields
non-falsy, the handler returns whatever JSON object the provider content
parses to, unchanged and with status 200, whatever its verdict value; only
content that fails to parse yields the 500 `Invalid grading response`
error. -/
theorem grade_returns_parsed_json_unvalidated (r : GradeRequest)
    (hq : falsyOptStr r.question = false)
    (he : falsyOptStr r.expectedAnswer = false)
    (hs : falsyOptStr r.studentAnswer = false) :
    (∀ j : Json, gradeHandler r (.content (some j)) = ⟨true, .jsonOk j⟩) ∧
    gradeHandler r (.content none) =
      ⟨true, .error 500 "Invalid grading response"⟩ := by
  constructor
  · intro j
    simp [gradeHandler, hq, he, hs]
  · simp [gradeHandler, hq, he, hs]

/-- C1 witness: the amended behaviour at a concrete request and reply. -/
theorem grade_returns_parsed_json_unvalidated_witness :
    falsyOptStr demoGradeRequest.question = false ∧
    falsyOptStr demoGradeRequest.expectedAnswer = false ∧
    falsyOptStr demoGradeRequest.studentAnswer = false ∧
    gradeHandler demoGradeRequest (.content (some (.str "raw"))) =
      ⟨true, .jsonOk (.str "raw")⟩ ∧
    gradeHandler demoGradeRequest (.content none) =
      ⟨true, .error 500 "Invalid grading response"⟩ :=
  ⟨rfl, rfl, rfl,
    (grade_returns_parsed_json_unvalidated demoGradeRequest rfl rfl rfl).1 (.str "raw"),
    (grade_returns_parsed_json_unvalidated demoGradeRequest rfl rfl rfl).2⟩

/-- C2. The claim says the extraction result never contains a
partially-invalid Question. It can: at the non-empty input `dog = perro`,
when the provider content parses to a payload whose only question has empty
`question` text and topic `math`, the handler replies 200 with that payload
returned as-is, though the question violates the specification's Question
invariant. -/
theorem extract_invalid_question_returned_counterexample :
    extractHandler (some "dog = perro") (.content (some invalidExtractPayload)) =
      ⟨true, .jsonOk invalidExtractPayload⟩ ∧
    invalidExtractPayload.lookup "questions" = some (.arr [invalidQuestionJson]) ∧
    specQuestionInvariant invalidQuestionJson = false ∧
    (ApiResponse.jsonOk invalidExtractPayload).status = 200 :=
  ⟨rfl, rfl, rfl, rfl⟩

/-- C2 (amended). For every non-blank rawText, the handler performs no shape
validation: any JSON the provider content parses to is returned unchanged
with status 200 (valid or not); unparsable content yields the 500
`Invalid response format from LLM` error and a provider HTTP failure yields
the 500 generic `Failed to extract questions` error. -/
theorem extract_returns_parsed_json_unvalidated (rawText : Option String)
    (h : blankOptStr rawText = false) :
    (∀ j : Json, extractHandler rawText (.content (some j)) = ⟨true, .jsonOk j⟩) ∧
    extractHandler rawText (.content none) =
      ⟨true, .error 500 "Invalid response format from LLM"⟩ ∧
    ∀ body : String, extractHandler rawText (.httpError body) =
      ⟨true, .error 500 "Failed to extract questions"⟩ := by
  refine ⟨fun j => ?_, ?_, fun body => ?_⟩ <;> simp [extractHandler, h]

/-- C2 witness: the amended behaviour at a concrete input and replies. -/
theorem extract_returns_parsed_json_unvalidated_witness :
    blankOptStr (some "dog = perro") = false ∧
    extractHandler (some "dog = perro") (.content (some (.str "raw"))) =
      ⟨true, .jsonOk (.str "raw")⟩ ∧
    extractHandler (some "dog = perro") (.content none) =
      ⟨true, .error 500 "Invalid response format from LLM"⟩ ∧
    extractHandler (some "dog = perro") (.httpError "quota") =
      ⟨true, .error 500 "Failed to extract questions"⟩ :=
  ⟨rfl,
    (extract_returns_parsed_json_unvalidated (some "dog = perro") rfl).1 (.str "raw"),
    (extract_returns_parsed_json_unvalidated (some "dog = perro") rfl).2.1,
    (extract_returns_parsed_json_unvalidated (some "dog = perro") rfl).2.2 "quota"⟩

/-- C3. The claim says an unconfigured speech credential is surfaced as
HTTP 503. It is not: at a request with non-blank text and no configured key,
the handler replies with status 500 and message
`Inworld API key not configured`, and 500 is not 503. -/
theorem tts_unconfigured_status_counterexample :
    ttsHandler none "Rafael" demoTtsRequest (.ok "audio") =
      ⟨none, .error 500 "Inworld API key not configured"⟩ ∧
    (TtsResponse.error 500 "Inworld API key not configured").status = 500 ∧
    ¬(TtsResponse.error 500 "Inworld API key not configured").status = 503 :=
  ⟨rfl, rfl, by decide⟩

/-- C3 (amended). For every synthesis request with non-blank text made while
the speech credential is falsy, the operation fails before any provider
request is issued, with status 500 (not 503) and the fixed configuration
message. -/
theorem tts_unconfigured_fails_500 (key : Option String) (dv : String)
    (r : TtsRequest) (p : TtsProviderResult)
    (htext : blankOptStr r.text = false)
    (hkey : falsyOptStr key = true) :
    ttsHandler key dv r p = ⟨none, .error 500 "Inworld API key not configured"⟩ ∧
    (ttsHandler key dv r p).response.status = 500 := by
  constructor <;> simp [ttsHandler, TtsResponse.status, htext, hkey]

/-- C3 witness: the amended behaviour at a concrete request. -/
theorem tts_unconfigured_fails_500_witness :
    blankOptStr demoTtsRequest.text = false ∧
    falsyOptStr (none : Option String) = true ∧
    ttsHandler none "Rafael" demoTtsRequest (.exn "x") =
      ⟨none, .error 500 "Inworld API key not configured"⟩ ∧
    (ttsHandler none "Rafael" demoTtsRequest (.exn "x")).response.status = 500 :=
  ⟨rfl, rfl,
    (tts_unconfigured_fails_500 none "Rafael" demoTtsRequest (.exn "x") rfl rfl).1,
    (tts_unconfigured_fails_500 none "Rafael" demoTtsRequest (.exn "x") rfl rfl).2⟩

/-- C4. The claim says no raw internal error message is ever included in a
response. It is: at the non-empty input `hola`, when the provider call
throws a transport exception, the catch block returns the exception's
message verbatim in the 500 response, and that message differs from the
generic one. -/
theorem internal_error_message_exposed_counterexample :
    extractHandler (some "hola") (.exn "connect ECONNREFUSED 10.0.0.7:443") =
      ⟨true, .error 500 "connect ECONNREFUSED 10.0.0.7:443"⟩ ∧
    ¬("connect ECONNREFUSED 10.0.0.7:443" = "Failed to extract questions") :=
  ⟨rfl, by decide⟩

/-- C4 (amended). On a provider HTTP failure the error body is never
included in the response — each handler replies with its fixed generic
message, independent of the body — but when a transport exception is thrown,
its message is returned verbatim in the 500 response. -/
theorem provider_bodies_hidden_exn_exposed
    (rawText : Option String) (hr : blankOptStr rawText = false)
    (g : GradeRequest)
    (hq : falsyOptStr g.question = false)
    (he : falsyOptStr g.expectedAnswer = false)
    (hs : falsyOptStr g.studentAnswer = false)
    (key : Option String) (hkey : falsyOptStr key = false)
    (dv : String) (tr : TtsRequest) (ht : blankOptStr tr.text = false) :
    (∀ body : String, extractHandler rawText (.httpError body) =
      ⟨true, .error 500 "Failed to extract questions"⟩) ∧
    (∀ m : String, extractHandler rawText (.exn m) = ⟨true, .error 500 m⟩) ∧
    (∀ body : String, gradeHandler g (.httpError body) =
      ⟨true, .error 500 "Grading failed"⟩) ∧
    (∀ m : String, gradeHandler g (.exn m) = ⟨true, .error 500 m⟩) ∧
    (∀ body : String, (ttsHandler key dv tr (.httpError body)).response =
      .error 500 "Text-to-speech failed") ∧
    (∀ m : String, (ttsHandler key dv tr (.exn m)).response = .error 500 m) := by
  refine ⟨fun body => ?_, fun m => ?_, fun body => ?_, fun m => ?_,
    fun body => ?_, fun m => ?_⟩
  · simp [extractHandler, hr]
  · simp [extractHandler, hr]
  · simp [gradeHandler, hq, he, hs]
  · simp [gradeHandler, hq, he, hs]
  · simp [ttsHandler, ht, hkey]
  · simp [ttsHandler, ht, hkey]

/-- C4 witness: the amended behaviour at concrete requests and failures. -/
theorem provider_bodies_hidden_exn_exposed_witness :
    blankOptStr (some "hola") = false ∧
    falsyOptStr (some "groqkey") = false ∧
    extractHandler (some "hola") (.httpError "quota exceeded") =
      ⟨true, .error 500 "Failed to extract questions"⟩ ∧
    extractHandler (some "hola") (.exn "socket hang up") =
      ⟨true, .error 500 "socket hang up"⟩ ∧
    gradeHandler demoGradeRequest (.httpError "quota exceeded") =
      ⟨true, .error 500 "Grading failed"⟩ ∧
    gradeHandler demoGradeRequest (.exn "socket hang up") =
      ⟨true, .error 500 "socket hang up"⟩ ∧
    (ttsHandler (some "groqkey") "Rafael" demoTtsRequest (.httpError "quota exceeded")).response =
      .error 500 "Text-to-speech failed" ∧
    (ttsHandler (some "groqkey") "Rafael" demoTtsRequest (.exn "socket hang up")).response =
      .error 500 "socket hang up" :=
  ⟨rfl, rfl,
    (provider_bodies_hidden_exn_exposed (some "hola") rfl demoGradeRequest rfl rfl rfl
      (some "groqkey") rfl "Rafael" demoTtsRequest rfl).1 "quota exceeded",
    (provider_bodies_hidden_exn_exposed (some "hola") rfl demoGradeRequest rfl rfl rfl
      (some "groqkey") rfl "Rafael" demoTtsRequest rfl).2.1 "socket hang up",
    (provider_bodies_hidden_exn_exposed (some "hola") rfl demoGradeRequest rfl rfl rfl
      (some "groqkey") rfl "Rafael" demoTtsRequest rfl).2.2.1 "quota exceeded",
    (provider_bodies_hidden_exn_exposed (some "hola") rfl demoGradeRequest rfl rfl rfl
      (some "groqkey") rfl "Rafael" demoTtsRequest rfl).2.2.2.1 "socket hang up",
    (provider_bodies_hidden_exn_exposed (some "hola") rfl demoGradeRequest rfl rfl rfl
      (some "groqkey") rfl "Rafael" demoTtsRequest rfl).2.2.2.2.1 "quota exceeded",
    (provider_bodies_hidden_exn_exposed (some "hola") rfl demoGradeRequest rfl rfl rfl
      (some "groqkey") rfl "Rafael" demoTtsRequest rfl).2.2.2.2.2 "socket hang up"⟩

/-- C5. At speeds -5, 0.3, 0.7, 1.5 and 9 the speaking rate of the outbound
provider request is 0.5, 0.5, 0.7, 1.5 and 1.5 respectively; the clamped
speed always lies in [0.5, 1.5] and is 0.7 when the field is absent; the
speaking rate the tts handler sends downstream is always the clamped
speed. -/
theorem tts_speed_clamped :
    (∀ sp : Option ℚ,
      (ttsHandler (some "k") "Rafael"
        { text := some "hola", voiceId := none, speed := sp } (.ok "a")).requestSent =
          some ("Rafael", selectedSpeed sp)) ∧
    selectedSpeed (some (-5)) = 1/2 ∧
    selectedSpeed (some (3/10)) = 1/2 ∧
    selectedSpeed (some (7/10)) = 7/10 ∧
    selectedSpeed (some (3/2)) = 3/2 ∧
    selectedSpeed (some 9) = 3/2 ∧
    selectedSpeed none = 7/10 ∧
    ∀ s : Option ℚ, 1/2 ≤ selectedSpeed s ∧ selectedSpeed s ≤ 3/2 := by
  refine ⟨fun sp => rfl,
    by norm_num [selectedSpeed, mathMin, mathMax, jsOrNum],
    by norm_num [selectedSpeed, mathMin, mathMax, jsOrNum],
    by norm_num [selectedSpeed, mathMin, mathMax, jsOrNum],
    by norm_num [selectedSpeed, mathMin, mathMax, jsOrNum],
    by norm_num [selectedSpeed, mathMin, mathMax, jsOrNum],
    by norm_num [selectedSpeed, mathMin, mathMax, jsOrNum],
    fun s => ?_⟩
  unfold selectedSpeed mathMin mathMax
  split_ifs <;> constructor <;> linarith

/-- C6. For every blank rawText (absent, empty or whitespace-only) and every
provider behaviour, the extraction handler replies 400 `No text provided`
and the provider request is never issued. -/
theorem extract_blank_text_rejected (rawText : Option String) (llm : LlmResult)
    (h : blankOptStr rawText = true) :
    extractHandler rawText llm = ⟨false, .error 400 "No text provided"⟩ := by
  simp [extractHandler, h]

/-- C6 witness: a whitespace-only input at a concrete provider behaviour. -/
theorem extract_blank_text_rejected_witness :
    blankOptStr (some "   ") = true ∧
    blankOptStr none = true ∧
    extractHandler (some "   ") (.content (some .null)) =
      ⟨false, .error 400 "No text provided"⟩ ∧
    extractHandler none (.content (some .null)) =
      ⟨false, .error 400 "No text provided"⟩ :=
  ⟨rfl, rfl,
    extract_blank_text_rejected (some "   ") (.content (some .null)) rfl,
    extract_blank_text_rejected none (.content (some .null)) rfl⟩

/-- C10. A speed of exactly 0 is falsy, so the default 0.7 — not the clamp
lower bound 0.5 — is sent as the speaking rate; the same default applies to
an absent (or null) speed. -/
theorem tts_speed_zero_uses_default :
    (ttsHandler (some "k") "Rafael"
      { text := some "hola", voiceId := none, speed := some 0 } (.ok "a")).requestSent =
        some ("Rafael", selectedSpeed (some 0)) ∧
    selectedSpeed (some 0) = 7/10 ∧
    selectedSpeed none = 7/10 ∧
    ¬(selectedSpeed (some 0) = 1/2) := by
  refine ⟨rfl,
    by norm_num [selectedSpeed, mathMin, mathMax, jsOrNum],
    by norm_num [selectedSpeed, mathMin, mathMax, jsOrNum],
    by norm_num [selectedSpeed, mathMin, mathMax, jsOrNum]⟩

/-- C7. For every store state and every creation request whose questions
field is absent or an empty list, the store is left unchanged (no insert is
issued), and when the store is connected the handler replies with the 400
validation error `No questions to save`. -/
theorem create_empty_questions_rejected (st : Store) (now : Nat) (today : String)
    (r : CreateRequest) (h : r.questions = none ∨ r.questions = some []) :
    (createSession st now today r).2 = st ∧
    (st.connected = true →
      (createSession st now today r).1 = .validationError "No questions to save" ∧
      (createSession st now today r).1.status = 400) := by
  rcases h with h | h <;>
    cases hc : st.connected <;>
      simp [createSession, CreateOutcome.status, h, hc]

/-- C7 witness: a questionless request against a concrete connected store. -/
theorem create_empty_questions_rejected_witness :
    ((⟨none, none, none, none⟩ : CreateRequest).questions = none ∨
      (⟨none, none, none, none⟩ : CreateRequest).questions = some []) ∧
    (createSession demoStore 7 "1/1/2025" ⟨none, none, none, none⟩).2 = demoStore ∧
    (demoStore.connected = true →
      (createSession demoStore 7 "1/1/2025" ⟨none, none, none, none⟩).1 =
        .validationError "No questions to save" ∧
      (createSession demoStore 7 "1/1/2025" ⟨none, none, none, none⟩).1.status = 400) :=
  ⟨Or.inl rfl,
    (create_empty_questions_rejected demoStore 7 "1/1/2025" ⟨none, none, none, none⟩
      (Or.inl rfl)).1,
    (create_empty_questions_rejected demoStore 7 "1/1/2025" ⟨none, none, none, none⟩
      (Or.inl rfl)).2⟩

/-- C8. For a connected store and a patch that supplies only a truthy stats
object, through an id string the route guard accepts and the query casts to
n: when no row has id n the handler replies NotFound and the store is
unchanged; when some row has id n the patch succeeds and the new table
equals the old one with exactly the rows of id n given the new stats and
`updatedAt := now` — their name, questions, rawText, createdAt and id are
untouched. -/
theorem patch_stats_only_frame (st : Store) (now : Nat) (idStr : String)
    (n : Int) (s : Json)
    (hconn : st.connected = true)
    (hguard : (jsParseInt idStr).isNone = false)
    (hcast : pgIntCast idStr = some n)
    (hs : s.truthy = true) :
    ((∀ row ∈ st.rows, ¬(row.id = n)) →
      patchSession st now idStr ⟨some s, none⟩ = (.notFound, st)) ∧
    ((∃ row ∈ st.rows, row.id = n) →
      (patchSession st now idStr ⟨some s, none⟩).1 = .success ∧
      (patchSession st now idStr ⟨some s, none⟩).2.rows =
        st.rows.map (fun row =>
          if row.id = n then { row with stats := s, updatedAt := now }
          else row)) := by
  have hstep : patchSession st now idStr ⟨some s, none⟩ =
      (if st.rows.any (fun row => decide (row.id = n)) then
        (.success,
          { st with rows := st.rows.map (fun row =>
              if row.id = n then applyPatch ⟨some s, none⟩ now row else row) })
      else (.notFound, st)) := by
    unfold patchSession
    rw [hconn, hguard, hcast]
    simp
  constructor
  · intro hnone
    have hany : st.rows.any (fun row => decide (row.id = n)) = false := by
      simp only [List.any_eq_false, decide_eq_true_eq]
      exact hnone
    rw [hstep, hany]
    simp
  · rintro ⟨row0, hmem, hid⟩
    have hany : st.rows.any (fun row => decide (row.id = n)) = true :=
      List.any_eq_true.2 ⟨row0, hmem, by simp [hid]⟩
    rw [hstep, hany]
    refine ⟨by simp, ?_⟩
    simp only [if_true]
    refine List.map_congr_left (fun row _ => ?_)
    by_cases h : row.id = n
    · simp [h, applyPatch, hs]
    · simp [h]

/-- C8 witness: patching only stats on row 2 of the demo store. -/
theorem patch_stats_only_frame_witness :
    demoStore.connected = true ∧
    (jsParseInt "2").isNone = false ∧
    pgIntCast "2" = some 2 ∧
    newStats.truthy = true ∧
    (patchSession demoStore 42 "2" ⟨some newStats, none⟩).1 = .success ∧
    (patchSession demoStore 42 "2" ⟨some newStats, none⟩).2.rows =
      demoStore.rows.map (fun row =>
        if row.id = 2 then { row with stats := newStats, updatedAt := 42 }
        else row) ∧
    patchSession { demoStore with rows := [rowA] } 42 "2" ⟨some newStats, none⟩ =
      (.notFound, { demoStore with rows := [rowA] }) :=
  ⟨rfl, rfl, rfl, rfl,
    (patch_stats_only_frame demoStore 42 "2" 2 newStats rfl rfl rfl rfl).2
      ⟨rowB, List.Mem.tail _ (List.Mem.head _), rfl⟩ |>.1,
    (patch_stats_only_frame demoStore 42 "2" 2 newStats rfl rfl rfl rfl).2
      ⟨rowB, List.Mem.tail _ (List.Mem.head _), rfl⟩ |>.2,
    (patch_stats_only_frame { demoStore with rows := [rowA] } 42 "2" 2 newStats
      rfl rfl rfl rfl).1
      (by intro row hrow; simp only [List.mem_singleton] at hrow; subst hrow; decide)⟩

/-- C9. For every connected store, the listing is exactly the rows sorted by
createdAt descending and projected to summaries — whose type carries only
id, name, stats, createdAt and questionCount, never questions or rawText —
with one summary per stored row (same length, summaries drawn from the rows,
every row represented). -/
theorem list_sessions_summary_sorted (st : Store) (h : st.connected = true) :
    listSessions st = some ((st.rows.insertionSort createdAtDesc).map summarize) ∧
    ((st.rows.insertionSort createdAtDesc).map summarize).length = st.rows.length ∧
    List.Sorted (fun a b : SessionSummary => b.createdAt ≤ a.createdAt)
      ((st.rows.insertionSort createdAtDesc).map summarize) ∧
    (∀ x ∈ (st.rows.insertionSort createdAtDesc).map summarize,
      ∃ row ∈ st.rows, x = summarize row) ∧
    (∀ row ∈ st.rows,
      summarize row ∈ (st.rows.insertionSort createdAtDesc).map summarize) := by
  refine ⟨by simp [listSessions, h], ?_, ?_, ?_, ?_⟩
  · rw [List.length_map, (List.perm_insertionSort createdAtDesc st.rows).length_eq]
  · have hs := List.sorted_insertionSort createdAtDesc st.rows
    exact List.pairwise_map.2 (hs.imp (fun hab => hab))
  · intro x hx
    rcases List.mem_map.1 hx with ⟨row, hrow, rfl⟩
    exact ⟨row, (List.perm_insertionSort createdAtDesc st.rows).mem_iff.1 hrow, rfl⟩
  · intro row hrow
    exact List.mem_map_of_mem summarize
      ((List.perm_insertionSort createdAtDesc st.rows).mem_iff.2 hrow)

/-- C9 witness: the listing of the three-session demo store. -/
theorem list_sessions_summary_sorted_witness :
    demoStore.connected = true ∧
    listSessions demoStore =
      some ((demoStore.rows.insertionSort createdAtDesc).map summarize) ∧
    List.Sorted (fun a b : SessionSummary => b.createdAt ≤ a.createdAt)
      ((demoStore.rows.insertionSort createdAtDesc).map summarize) ∧
    listSessions demoStore = some [summarize rowB, summarize rowA, summarize rowC] :=
  ⟨rfl,
    (list_sessions_summary_sorted demoStore rfl).1,
    (list_sessions_summary_sorted demoStore rfl).2.2.1,
    rfl⟩

end SpanishExaminer
